import Mathlib

/-!
A shallow embedding of the poisoning state machine of the poison-guard repository
(src/src/poison/{error,mod,guard,recover,scope}.rs) together with proofs about it.

Modelling conventions:
* Source locations are abstract identifiers (Nat).  A Rust function annotated
  #[track_caller] becomes a Lean function taking an explicit caller location.
* Error objects (Box dyn Error) are modelled as String; only identity matters.
* Panic payloads (Box dyn Any) are modelled by an inductive with the two
  downcastable cases (&'static str and String) plus an opaque "other" case,
  mirroring the downcast chain in PoisonState::from_panic.
* Backtraces are runtime diagnostics with no observable structure and are omitted.
* Mutation through &mut self becomes state-passing: each method returns the new value.
* The files of src/src/poison come from slightly different revisions of the same
  crate, so a few method names drift between callers and definitions.  The
  correspondences, checked against both revisions present in the repository
  (src/src/poison.rs carries the older spelling with identical bodies):
  guarded = then_to_sentinel, poison_with_error = then_to_err,
  poison_with_panic = then_to_panic, unpoison_if_guarded = then_to_unpoisoned,
  unpoison = assignment of the unpoisoned state.
-/

/-- Abstract source locations, standing in for &'static Location<'static>. -/
abbrev Loc := Nat

/-- A panic payload (Box<dyn Any + Send>): the two string-like cases that
PoisonState::from_panic can downcast, plus everything else. -/
inductive PanicPayload where
  | staticStr (msg : String)
  | ownedString (msg : String)
  | other
deriving DecidableEq

/-- The downcast chain at the top of PoisonState::from_panic
(src/src/poison/error.rs lines 95-105): a &'static str or String payload
yields its message, anything else yields none. -/
def PanicPayload.downcast : PanicPayload → Option String
  | .staticStr msg => some msg
  | .ownedString msg => some msg
  | .other => none

/-- PoisonStateInner from src/src/poison/error.rs lines 36-44 (backtraces omitted). -/
inductive PoisonState where
  | capturedPanic (location : Loc) (payload : String)
  | unknownPanic (location : Loc)
  | capturedErr (location : Loc) (source : String)
  | unknownErr (location : Loc)
  | sentinel (location : Loc)
  | unpoisoned
deriving DecidableEq

/-- PoisonError wraps a clone of the inner state (src/src/poison/error.rs line 9). -/
abbrev PoisonError := PoisonState

/-- PoisonState::from_unpoisoned (error.rs lines 69-71). -/
def PoisonState.from_unpoisoned : PoisonState := .unpoisoned

/-- PoisonState::from_err (error.rs lines 73-89). -/
def PoisonState.from_err (location : Loc) (err : Option String) : PoisonState :=
  match err with
  | some e => .capturedErr location e
  | none => .unknownErr location

/-- PoisonState::from_panic (error.rs lines 91-119). -/
def PoisonState.from_panic (location : Loc) (panic : Option PanicPayload) : PoisonState :=
  match panic.bind PanicPayload.downcast with
  | some msg => .capturedPanic location msg
  | none => .unknownPanic location

/-- PoisonState::then_to_sentinel (error.rs lines 121-124); called guarded in guard.rs. -/
def PoisonState.then_to_sentinel (_s : PoisonState) (caller : Loc) : PoisonState :=
  .sentinel caller

/-- PoisonState::then_to_err (error.rs lines 126-135); called poison_with_error in
guard.rs and recover.rs.  The recorded location is the sentinel's origin when the
current state is the sentinel, and the caller's location otherwise. -/
def PoisonState.then_to_err (s : PoisonState) (caller : Loc) (err : Option String) :
    PoisonState :=
  let location := match s with
    | .sentinel location => location
    | _ => caller
  PoisonState.from_err location err

/-- PoisonState::then_to_panic (error.rs lines 137-146); called poison_with_panic in
guard.rs. -/
def PoisonState.then_to_panic (s : PoisonState) (caller : Loc) (panic : Option PanicPayload) :
    PoisonState :=
  let location := match s with
    | .sentinel location => location
    | _ => caller
  PoisonState.from_panic location panic

/-- PoisonState::then_to_unpoisoned (error.rs lines 148-153); called
unpoison_if_guarded in guard.rs and recover.rs. -/
def PoisonState.then_to_unpoisoned (s : PoisonState) : PoisonState :=
  match s with
  | .sentinel _ => PoisonState.from_unpoisoned
  | _ => s

/-- PoisonState::is_unpoisoned_or_sentinel (error.rs lines 155-160). -/
def PoisonState.is_unpoisoned_or_sentinel : PoisonState → Bool
  | .unpoisoned => true
  | .sentinel _ => true
  | _ => false

/-- PoisonState::is_unpoisoned (error.rs lines 162-164). -/
def PoisonState.is_unpoisoned : PoisonState → Bool
  | .unpoisoned => true
  | _ => false

/-- PoisonState::is_poisoned (error.rs lines 166-168). -/
def PoisonState.is_poisoned (s : PoisonState) : Bool :=
  !s.is_unpoisoned

/-- PoisonState::to_error (error.rs lines 170-172): clones the inner state. -/
def PoisonState.to_error (s : PoisonState) : PoisonError := s

/-- Analysis helper: the location field carried by every variant except Unpoisoned. -/
def PoisonState.location : PoisonState → Option Loc
  | .capturedPanic location _ => some location
  | .unknownPanic location => some location
  | .capturedErr location _ => some location
  | .unknownErr location => some location
  | .sentinel location => some location
  | .unpoisoned => none

/-- Analysis helper: the coarse tag of a state, distinguishing the panic-poisoned,
error-poisoned, sentinel and unpoisoned families of PoisonStateInner. -/
inductive PoisonTag where
  | panicTag
  | errTag
  | sentinelTag
  | unpoisonedTag
deriving DecidableEq

/-- Analysis helper: classify a state by its PoisonTag. -/
def PoisonState.tag : PoisonState → PoisonTag
  | .capturedPanic _ _ => .panicTag
  | .unknownPanic _ => .panicTag
  | .capturedErr _ _ => .errTag
  | .unknownErr _ => .errTag
  | .sentinel _ => .sentinelTag
  | .unpoisoned => .unpoisonedTag

/-- Poison<T> from src/src/poison/mod.rs lines 31-34. -/
structure Poison (T : Type) where
  value : T
  state : PoisonState
deriving DecidableEq

/-- Poison::new (mod.rs lines 54-59). -/
def Poison.new {T : Type} (v : T) : Poison T :=
  { value := v, state := PoisonState.from_unpoisoned }

/-- Poison::is_poisoned (mod.rs lines 177-179). -/
def Poison.is_poisoned {T : Type} (p : Poison T) : Bool :=
  p.state.is_poisoned

/-- Poison::get (mod.rs lines 205-211): the value when unpoisoned, otherwise a
failure (the recover handle it returns carries no extra data beyond the container,
so the failure case is modelled as none). -/
def Poison.get {T : Type} (p : Poison T) : Option T :=
  if p.is_poisoned then none else some p.value

/-- PoisonGuard<T> (guard.rs lines 16-22): wraps exclusive access to the container. -/
structure PoisonGuard (T : Type) where
  target : Poison T
deriving DecidableEq

/-- PoisonGuard::poison_on_unwind (guard.rs lines 33-41): the lenient-checkout guard
constructor; sets the state to the checked-out sentinel at the caller's location. -/
def PoisonGuard.poison_on_unwind {T : Type} (target : Poison T) (caller : Loc) :
    PoisonGuard T :=
  { target := { target with state := target.state.then_to_sentinel caller } }

/-- PoisonGuard::poison_now (guard.rs lines 43-51): the strict-checkout guard
constructor; immediately poisons with an error and no cause. -/
def PoisonGuard.poison_now {T : Type} (target : Poison T) (caller : Loc) :
    PoisonGuard T :=
  { target := { target with state := target.state.then_to_err caller none } }

/-- PoisonGuard::unpoison_now (guard.rs lines 62-65): consume the guard and clear
the state unconditionally. -/
def PoisonGuard.unpoison_now {T : Type} (guard : PoisonGuard T) : Poison T :=
  { guard.target with state := PoisonState.from_unpoisoned }

/-- Writes to the value through the guard's DerefMut impl (guard.rs lines 105-112). -/
def PoisonGuard.modify {T : Type} (guard : PoisonGuard T) (f : T → T) : PoisonGuard T :=
  { target := { guard.target with value := f guard.target.value } }

/-- Drop for PoisonGuard (guard.rs lines 68-80): when the stack is unwinding,
poison with a panic and no payload; otherwise clear the state only if it is still
the checked-out sentinel. -/
def PoisonGuard.drop {T : Type} (guard : PoisonGuard T) (panicking : Bool)
    (caller : Loc) : Poison T :=
  if panicking then
    { guard.target with state := guard.target.state.then_to_panic caller none }
  else
    { guard.target with state := guard.target.state.then_to_unpoisoned }

/-- PoisonRecover<T> (recover.rs lines 8-12): a handle to a poisoned container,
remembering which discipline the failed checkout used. -/
structure PoisonRecover (T : Type) where
  target : Poison T
  recover_to_poison_now : Bool
deriving DecidableEq

/-- PoisonRecover::recover_to_poison_on_unwind (recover.rs lines 92-98). -/
def PoisonRecover.mk_on_unwind {T : Type} (target : Poison T) : PoisonRecover T :=
  { target := target, recover_to_poison_now := false }

/-- PoisonRecover::recover_to_poison_now (recover.rs lines 100-106). -/
def PoisonRecover.mk_poison_now {T : Type} (target : Poison T) : PoisonRecover T :=
  { target := target, recover_to_poison_now := true }

/-- Poison::err (mod.rs lines 340-353): explicitly poison a live guard with an
error, consuming it.  The PoisonRecover constructor named there (new) is not
present in recover.rs; the lenient constructor is used, and no theorem below
depends on the flag of the handle this returns. -/
def Poison.err {T : Type} (guard : PoisonGuard T) (caller : Loc) (e : String) :
    PoisonRecover T :=
  PoisonRecover.mk_on_unwind
    { guard.target with state := guard.target.state.then_to_err caller (some e) }

/-- Poison::poison (mod.rs lines 244-256): fails with a recover handle when the
container is poisoned (including the abandoned-checkout sentinel).  The guard
constructor named there (PoisonGuard::new) is not present in guard.rs; per the
lenient behaviour documented on this method the lenient constructor is used. -/
def Poison.poison {T : Type} (p : Poison T) (caller : Loc) :
    Except (PoisonRecover T) (PoisonGuard T) :=
  if p.is_poisoned then
    .error (PoisonRecover.mk_on_unwind p)
  else
    .ok (PoisonGuard.poison_on_unwind p caller)

/-- Modelled from the spec: the lenient checkout entry point (named on_unwind in
src/src/tests/poison_unless_recovered.rs) is absent from src; per section 4.1 it
fails with a recover handle when the container is already poisoned and otherwise
builds the lenient guard, exactly as Poison::poison in mod.rs does. -/
def Poison.on_unwind {T : Type} (p : Poison T) (caller : Loc) :
    Except (PoisonRecover T) (PoisonGuard T) :=
  if p.is_poisoned then
    .error (PoisonRecover.mk_on_unwind p)
  else
    .ok (PoisonGuard.poison_on_unwind p caller)

/-- Modelled from the spec: the strict checkout entry point (named
unless_recovered in src/src/tests/poison_unless_recovered.rs) is absent from src;
per section 4.1 it fails with a strict recover handle when the container is
already poisoned and otherwise builds the strict guard via
PoisonGuard::poison_now from guard.rs. -/
def Poison.unless_recovered {T : Type} (p : Poison T) (caller : Loc) :
    Except (PoisonRecover T) (PoisonGuard T) :=
  if p.is_poisoned then
    .error (PoisonRecover.mk_poison_now p)
  else
    .ok (PoisonGuard.poison_now p caller)

/-- PoisonRecover::recover (recover.rs lines 24-27): always re-checkout under the
lenient discipline, leaving the value untouched. -/
def PoisonRecover.recover {T : Type} (h : PoisonRecover T) (caller : Loc) :
    PoisonGuard T :=
  PoisonGuard.poison_on_unwind h.target caller

/-- PoisonRecover::recover_with (recover.rs lines 34-43): run the repair on the
value, then re-checkout under the discipline recorded on the handle. -/
def PoisonRecover.recover_with {T : Type} (h : PoisonRecover T) (f : T → T)
    (caller : Loc) : PoisonGuard T :=
  let target := { h.target with value := f h.target.value }
  if h.recover_to_poison_now then
    PoisonGuard.poison_now target caller
  else
    PoisonGuard.poison_on_unwind target caller

/-- PoisonRecover::try_recover_with (recover.rs lines 50-78).  The fallible repair
mutates the value and reports none for Ok(()) or some e for Err(e).  On success the
handle's discipline is re-entered (with a then_to_unpoisoned first on the lenient
path); on failure the state is poisoned with the new error and the handle is
returned again. -/
def PoisonRecover.try_recover_with {T : Type} (h : PoisonRecover T)
    (f : T → T × Option String) (caller : Loc) :
    Except (PoisonRecover T) (PoisonGuard T) :=
  let (v, r) := f h.target.value
  let target := { h.target with value := v }
  match r with
  | none =>
    if h.recover_to_poison_now then
      .ok (PoisonGuard.poison_now target caller)
    else
      let target := { target with state := target.state.then_to_unpoisoned }
      .ok (PoisonGuard.poison_on_unwind target caller)
  | some e =>
    .error { h with
      target := { target with state := target.state.then_to_err caller (some e) } }

/-- PoisonRecover::into_error (recover.rs lines 83-85). -/
def PoisonRecover.into_error {T : Type} (h : PoisonRecover T) : PoisonError :=
  h.target.state.to_error

/-- The outcome of running one synchronous scope step on the value: it may unwind
with a payload, return a regular failure, or succeed, in every case leaving the
value as mutated so far (the step holds &mut T). -/
inductive StepOutcome (T R : Type) where
  | panicked (value : T) (payload : PanicPayload)
  | errored (value : T) (err : String)
  | ok (value : T) (result : R)

/-- PoisonScope<T> (scope.rs lines 19-28): owns the container plus a shadow copy
of the poison state. -/
structure PoisonScope (T : Type) where
  target : Poison T
  state : PoisonState
deriving DecidableEq

/-- Poison::scope (mod.rs lines 325-333) with PoisonScope::new (scope.rs lines
145-153): take the container from the guard and clone its state into the shadow. -/
def Poison.scope {T : Type} (guard : PoisonGuard T) : PoisonScope T :=
  { target := guard.target, state := guard.target.state }

/-- PoisonScope::try_catch_unwind (scope.rs lines 101-127) combined with the
synchronous Try::into_result driver (scope.rs lines 279-302): while the shadow is
still unpoisoned-or-sentinel the step runs, an unwind feeds then_to_panic and a
regular failure feeds then_to_err into the shadow; otherwise the already-captured
failure is returned immediately and the step never runs. -/
def PoisonScope.try_catch_unwind {T R : Type} (sc : PoisonScope T)
    (step : T → StepOutcome T R) (caller : Loc) :
    PoisonScope T × Except PoisonError R :=
  if sc.state.is_unpoisoned_or_sentinel then
    match step sc.target.value with
    | .panicked v payload =>
      let st := sc.state.then_to_panic caller (some payload)
      ({ target := { sc.target with value := v }, state := st }, .error st.to_error)
    | .errored v e =>
      let st := sc.state.then_to_err caller (some e)
      ({ target := { sc.target with value := v }, state := st }, .error st.to_error)
    | .ok v r =>
      ({ target := { sc.target with value := v }, state := sc.state }, .ok r)
  else
    (sc, .error sc.state.to_error)

/-- PoisonScope::poison (scope.rs lines 134-143) with PoisonScope::take (lines
155-169): swap the shadow into the container, clear it only if it is still the
sentinel, then hand back a guard or a recover handle.  The constructors named
there (PoisonGuard::new, PoisonRecover::new) are not present in guard.rs and
recover.rs; the guard wraps the container unchanged and the handle uses the
lenient constructor, and no theorem below depends on the handle's flag. -/
def PoisonScope.poison {T : Type} (sc : PoisonScope T) :
    Except (PoisonRecover T) (PoisonGuard T) :=
  let target := { sc.target with state := sc.state.then_to_unpoisoned }
  if target.is_poisoned then
    .error (PoisonRecover.mk_on_unwind target)
  else
    .ok { target := target }

/-- Analysis helper: whether a Result landed in its Ok branch. -/
def exceptIsOk {A B : Type} : Except A B → Bool
  | .ok _ => true
  | .error _ => false

/-- Helper: a container that is not poisoned has the Unpoisoned state. -/
theorem Poison.state_eq_of_not_poisoned {T : Type} (p : Poison T)
    (hp : p.is_poisoned = false) : p.state = .unpoisoned := by
  cases hs : p.state <;>
    simp_all [Poison.is_poisoned, PoisonState.is_poisoned, PoisonState.is_unpoisoned]

/-- Helper: the location recorded by from_panic is the one it was given. -/
theorem PoisonState.from_panic_location (l : Loc) (pl : Option PanicPayload) :
    (PoisonState.from_panic l pl).location = some l := by
  cases pl with
  | none => rfl
  | some payload => cases payload <;> rfl

/-- Helper: from_panic always produces a poisoned state. -/
theorem PoisonState.from_panic_is_poisoned (l : Loc) (pl : Option PanicPayload) :
    (PoisonState.from_panic l pl).is_poisoned = true := by
  cases pl with
  | none => rfl
  | some payload => cases payload <;> rfl

/-- C10: when an unwind is captured into the poison state, a message is recorded
only for a &static-str or String payload; any other payload yields the
unknown-panic state with no message, and the origin location and poisoned status
are recorded either way. -/
theorem c10_from_panic_payloads (l : Loc) (m : String) (pl : Option PanicPayload) :
    PoisonState.from_panic l (some (.staticStr m)) = .capturedPanic l m
    ∧ PoisonState.from_panic l (some (.ownedString m)) = .capturedPanic l m
    ∧ PoisonState.from_panic l (some .other) = .unknownPanic l
    ∧ (PoisonState.from_panic l pl).location = some l
    ∧ (PoisonState.from_panic l pl).is_poisoned = true :=
  ⟨rfl, rfl, rfl, PoisonState.from_panic_location l pl,
    PoisonState.from_panic_is_poisoned l pl⟩

/-- C9: while a lenient checkout is live and nothing has failed (the state is the
checked-out sentinel), the container already reports is_poisoned and get refuses
access; in general get yields the value exactly when the state is Unpoisoned. -/
theorem c9_checked_out_blocks_get {T : Type} (p q : Poison T) (l : Loc)
    (hp : p.is_poisoned = false) :
    (PoisonGuard.poison_on_unwind p l).target.state = .sentinel l
    ∧ (PoisonGuard.poison_on_unwind p l).target.is_poisoned = true
    ∧ (PoisonGuard.poison_on_unwind p l).target.get = none
    ∧ (q.get = some q.value ↔ q.state = .unpoisoned) := by
  refine ⟨rfl, rfl, rfl, ?_⟩
  cases hs : q.state <;>
    simp_all [Poison.get, Poison.is_poisoned, PoisonState.is_poisoned,
      PoisonState.is_unpoisoned]

/-- C9 witness. -/
theorem c9_checked_out_blocks_get_witness :
    (Poison.new (0 : Nat)).is_poisoned = false
    ∧ (PoisonGuard.poison_on_unwind (Poison.new (0 : Nat)) 1).target.is_poisoned = true
    ∧ (PoisonGuard.poison_on_unwind (Poison.new (0 : Nat)) 1).target.get = none :=
  ⟨rfl, (c9_checked_out_blocks_get (Poison.new 0) (Poison.new 0) 1 rfl).2.1,
    (c9_checked_out_blocks_get (Poison.new 0) (Poison.new 0) 1 rfl).2.2.1⟩

/-- C8: a container left in the checked-out sentinel state by an abandoned guard
is treated as poisoned, and a checkout under either discipline (and the generic
poison entry point from mod.rs) fails with a recover handle instead of a guard. -/
theorem c8_abandoned_checkout_fails {T : Type} (p : Poison T) (sl l l2 l3 : Loc)
    (hs : p.state = .sentinel sl) :
    p.is_poisoned = true
    ∧ Poison.poison p l3 = .error (PoisonRecover.mk_on_unwind p)
    ∧ Poison.on_unwind p l = .error (PoisonRecover.mk_on_unwind p)
    ∧ Poison.unless_recovered p l2 = .error (PoisonRecover.mk_poison_now p) := by
  have hp : p.is_poisoned = true := by
    simp [Poison.is_poisoned, hs, PoisonState.is_poisoned, PoisonState.is_unpoisoned]
  refine ⟨hp, ?_, ?_, ?_⟩ <;>
    simp [Poison.poison, Poison.on_unwind, Poison.unless_recovered, hp]

/-- C8 witness. -/
theorem c8_abandoned_checkout_fails_witness :
    (Poison.mk (0 : Nat) (.sentinel 7)).state = .sentinel 7
    ∧ ((Poison.mk (0 : Nat) (.sentinel 7)).is_poisoned = true
    ∧ Poison.poison (Poison.mk (0 : Nat) (.sentinel 7)) 3
        = .error (PoisonRecover.mk_on_unwind (Poison.mk 0 (.sentinel 7)))
    ∧ Poison.on_unwind (Poison.mk (0 : Nat) (.sentinel 7)) 1
        = .error (PoisonRecover.mk_on_unwind (Poison.mk 0 (.sentinel 7)))
    ∧ Poison.unless_recovered (Poison.mk (0 : Nat) (.sentinel 7)) 2
        = .error (PoisonRecover.mk_poison_now (Poison.mk 0 (.sentinel 7)))) :=
  ⟨rfl, c8_abandoned_checkout_fails (Poison.mk 0 (.sentinel 7)) 7 1 2 3 rfl⟩

/-- C4: on an unpoisoned container a strict checkout immediately sets the state
to the error-poisoned state with no cause at the checkout location, and a normal
release without any recovery operation leaves that poison in place. -/
theorem c4_strict_checkout_persists {T : Type} (p : Poison T) (l d : Loc)
    (hp : p.is_poisoned = false) :
    (PoisonGuard.poison_now p l).target.state = .unknownErr l
    ∧ (PoisonGuard.poison_now p l).target.is_poisoned = true
    ∧ ((PoisonGuard.poison_now p l).drop false d).state = .unknownErr l
    ∧ ((PoisonGuard.poison_now p l).drop false d).is_poisoned = true := by
  have hs := Poison.state_eq_of_not_poisoned p hp
  refine ⟨?_, ?_, ?_, ?_⟩ <;>
    simp [PoisonGuard.poison_now, PoisonGuard.drop, hs, PoisonState.then_to_err,
      PoisonState.from_err, PoisonState.then_to_unpoisoned, Poison.is_poisoned,
      PoisonState.is_poisoned, PoisonState.is_unpoisoned]

/-- C4 witness. -/
theorem c4_strict_checkout_persists_witness :
    (Poison.new (0 : Nat)).is_poisoned = false
    ∧ ((PoisonGuard.poison_now (Poison.new (0 : Nat)) 1).target.state = .unknownErr 1
    ∧ (PoisonGuard.poison_now (Poison.new (0 : Nat)) 1).target.is_poisoned = true
    ∧ ((PoisonGuard.poison_now (Poison.new (0 : Nat)) 1).drop false 2).state = .unknownErr 1
    ∧ ((PoisonGuard.poison_now (Poison.new (0 : Nat)) 1).drop false 2).is_poisoned = true) :=
  ⟨rfl, c4_strict_checkout_persists (Poison.new 0) 1 2 rfl⟩

/-- C5: a lenient checkout on an unpoisoned container followed by a normal
(non-unwinding) release leaves the container unpoisoned with the value reflecting
every mutation made through the guard; the release clears the state only when it
is still the checked-out sentinel, and leaves any other (explicitly poisoned)
state in place. -/
theorem c5_lenient_normal_release {T : Type} (p : Poison T) (l d : Loc) (f : T → T)
    (s : PoisonState) (hp : p.is_poisoned = false)
    (hs : s.is_unpoisoned_or_sentinel = false) :
    ((((PoisonGuard.poison_on_unwind p l).modify f).drop false d).is_poisoned = false)
    ∧ ((((PoisonGuard.poison_on_unwind p l).modify f).drop false d).value = f p.value)
    ∧ s.then_to_unpoisoned = s := by
  refine ⟨rfl, rfl, ?_⟩
  cases s <;> simp_all [PoisonState.is_unpoisoned_or_sentinel, PoisonState.then_to_unpoisoned]

/-- C5 witness. -/
theorem c5_lenient_normal_release_witness :
    (Poison.new (10 : Nat)).is_poisoned = false
    ∧ (PoisonState.unknownErr 3).is_unpoisoned_or_sentinel = false
    ∧ ((((PoisonGuard.poison_on_unwind (Poison.new (10 : Nat)) 1).modify
          (fun v => v + 1)).drop false 2).is_poisoned = false)
    ∧ ((((PoisonGuard.poison_on_unwind (Poison.new (10 : Nat)) 1).modify
          (fun v => v + 1)).drop false 2).value = 11) :=
  ⟨rfl, rfl,
    (c5_lenient_normal_release (Poison.new 10) 1 2 (fun v => v + 1)
      (.unknownErr 3) rfl rfl).1,
    (c5_lenient_normal_release (Poison.new 10) 1 2 (fun v => v + 1)
      (.unknownErr 3) rfl rfl).2.1⟩

/-- C6: a lenient checkout whose guard is dropped while the stack is unwinding
leaves the container poisoned by an unwind whose recorded origin is the source
location where the checkout began (not the release site). -/
theorem c6_lenient_unwind_origin {T : Type} (p : Poison T) (l d : Loc)
    (hp : p.is_poisoned = false) :
    ((PoisonGuard.poison_on_unwind p l).drop true d).state = .unknownPanic l
    ∧ ((PoisonGuard.poison_on_unwind p l).drop true d).is_poisoned = true
    ∧ ((PoisonGuard.poison_on_unwind p l).drop true d).state.location = some l := by
  exact ⟨rfl, rfl, rfl⟩

/-- C6 witness. -/
theorem c6_lenient_unwind_origin_witness :
    (Poison.new (0 : Nat)).is_poisoned = false
    ∧ (((PoisonGuard.poison_on_unwind (Poison.new (0 : Nat)) 1).drop true 2).state
        = .unknownPanic 1
    ∧ ((PoisonGuard.poison_on_unwind (Poison.new (0 : Nat)) 1).drop true 2).is_poisoned = true
    ∧ ((PoisonGuard.poison_on_unwind (Poison.new (0 : Nat)) 1).drop true 2).state.location
        = some 1) :=
  ⟨rfl, c6_lenient_unwind_origin (Poison.new 0) 1 2 rfl⟩

/-- Helper: from_panic never yields an armed (unpoisoned-or-sentinel) state. -/
theorem PoisonState.from_panic_not_armed (l : Loc) (pl : Option PanicPayload) :
    (PoisonState.from_panic l pl).is_unpoisoned_or_sentinel = false := by
  cases pl with
  | none => rfl
  | some payload => cases payload <;> rfl

/-- C1 counterexample: a strict checkout at location 1 followed by an explicit
poison at location 2 records location 2, the site of the failure, not the
checkout origin 1 — so under the strict discipline the origin is not preserved
through a subsequent explicit poisoning. -/
theorem c1_counterexample :
    (Poison.err (PoisonGuard.poison_now (Poison.new (0 : Nat)) 1) 2 "cause").target.state
      = .capturedErr 2 "cause"
    ∧ (Poison.err (PoisonGuard.poison_now (Poison.new (0 : Nat)) 1) 2 "cause").target.state.location
      ≠ some 1 :=
  ⟨rfl, by decide⟩

/-- C1 (amended): a poisoning transition preserves the recorded origin exactly
when the state it replaces is still the checked-out sentinel.  Every poisoning of
a lenient checkout (explicit error, release while unwinding, reported failure)
therefore keeps the checkout origin, while poisoning a strict checkout, whose
state is already error-poisoned from the moment it begins, records the location
of the poisoning call instead. -/
theorem c1_origin_fixed_from_sentinel {T : Type} (p : Poison T) (l c d : Loc)
    (e : String) (payload : Option PanicPayload) :
    ((Poison.err (PoisonGuard.poison_on_unwind p l) c e).target.state.location = some l)
    ∧ (((PoisonGuard.poison_on_unwind p l).drop true d).state.location = some l)
    ∧ (((PoisonGuard.poison_on_unwind p l).target.state.then_to_err c (some e)).location = some l)
    ∧ (((PoisonGuard.poison_on_unwind p l).target.state.then_to_panic c payload).location = some l)
    ∧ ((Poison.err (PoisonGuard.poison_now p l) c e).target.state.location = some c) := by
  refine ⟨rfl, rfl, rfl, ?_, ?_⟩
  · exact PoisonState.from_panic_location l payload
  · rfl

/-- C2 counterexample: a strict checkout against a poisoned container yields a
strict recover handle; recover_with on that handle re-poisons the container
(error-poisoned, no cause, at the recovery site) instead of clearing it to
Unpoisoned, and the container is still poisoned after the guard's normal
release. -/
theorem c2_counterexample :
    Poison.unless_recovered (Poison.mk (0 : Nat) (.unknownErr 1)) 2
      = .error (PoisonRecover.mk_poison_now (Poison.mk 0 (.unknownErr 1)))
    ∧ ((PoisonRecover.mk_poison_now (Poison.mk (0 : Nat) (.unknownErr 1))).recover_with
        (fun v => v + 1) 3).target.state = .unknownErr 3
    ∧ ((PoisonRecover.mk_poison_now (Poison.mk (0 : Nat) (.unknownErr 1))).recover_with
        (fun v => v + 1) 3).target.is_poisoned = true
    ∧ (((PoisonRecover.mk_poison_now (Poison.mk (0 : Nat) (.unknownErr 1))).recover_with
        (fun v => v + 1) 3).drop false 4).is_poisoned = true :=
  ⟨rfl, rfl, rfl, rfl⟩

/-- C2 (amended): recover_with runs the repair exactly once and re-enters the
discipline recorded on the handle: a lenient handle yields a guard over the
checked-out sentinel, so a normal release clears the container to Unpoisoned,
while a strict handle yields a strict guard that immediately re-poisons
(error-poisoned, no cause), so the container remains poisoned after a normal
release until explicitly recovered. -/
theorem c2_recover_with_discipline {T : Type} (h : PoisonRecover T) (f : T → T)
    (c d : Loc) :
    ((h.recover_with f c).target.value = f h.target.value)
    ∧ (((h.recover_with f c).drop false d).value = f h.target.value)
    ∧ (((h.recover_with f c).drop false d).is_poisoned = h.recover_to_poison_now) := by
  cases hb : h.recover_to_poison_now <;>
    simp [PoisonRecover.recover_with, hb, PoisonGuard.poison_on_unwind,
      PoisonGuard.poison_now, PoisonGuard.drop, PoisonState.then_to_sentinel,
      PoisonState.then_to_err, PoisonState.then_to_unpoisoned, PoisonState.from_err,
      PoisonState.from_unpoisoned, Poison.is_poisoned, PoisonState.is_poisoned,
      PoisonState.is_unpoisoned]

/-- C3 counterexample: a container poisoned by a panic whose repair then fails
does not keep its tag: try_recover_with always rewrites the state into the
error-poisoned family, so the unwind-poisoned tag is replaced, not preserved. -/
theorem c3_counterexample :
    (PoisonRecover.mk_on_unwind (Poison.mk (0 : Nat) (.capturedPanic 1 "p"))).try_recover_with
        (fun v => (v, some "boom")) 2
      = .error (PoisonRecover.mk_on_unwind (Poison.mk 0 (.capturedErr 2 "boom")))
    ∧ (PoisonState.capturedErr 2 "boom").tag ≠ (PoisonState.capturedPanic 1 "p").tag :=
  ⟨rfl, by decide⟩

/-- C3 (amended): when the repair fails, try_recover_with leaves the container
poisoned in the error-poisoned family (replacing the previous tag, even an
unwind tag) with the new cause and the value as mutated by the repair, and
returns the handle again with its discipline flag intact; a later
try_recover_with on that handle whose repair succeeds still yields a guard. -/
theorem c3_try_recover_with_retry {T : Type} (h : PoisonRecover T)
    (f g : T → T × Option String) (e : String) (v w : T) (c c2 : Loc)
    (hf : f h.target.value = (v, some e))
    (hg : g v = (w, none)) :
    h.try_recover_with f c
      = .error { target := { value := v, state := h.target.state.then_to_err c (some e) },
                 recover_to_poison_now := h.recover_to_poison_now }
    ∧ (h.target.state.then_to_err c (some e)).tag = .errTag
    ∧ (h.target.state.then_to_err c (some e)).is_poisoned = true
    ∧ exceptIsOk
        (PoisonRecover.try_recover_with
          { target := { value := v, state := h.target.state.then_to_err c (some e) },
            recover_to_poison_now := h.recover_to_poison_now } g c2) = true := by
  refine ⟨?_, rfl, rfl, ?_⟩
  · simp [PoisonRecover.try_recover_with, hf]
  · cases hb : h.recover_to_poison_now <;>
      simp [PoisonRecover.try_recover_with, hg, hb, exceptIsOk]

/-- C3 witness. -/
theorem c3_try_recover_with_retry_witness :
    ((fun t : Nat => (t + 1, some "boom"))
        (PoisonRecover.mk_on_unwind (Poison.mk (0 : Nat) (.capturedPanic 1 "p"))).target.value
      = ((1 : Nat), some "boom"))
    ∧ ((fun t : Nat => (t, (none : Option String))) 1 = ((1 : Nat), none))
    ∧ ((PoisonRecover.mk_on_unwind (Poison.mk (0 : Nat) (.capturedPanic 1 "p"))).try_recover_with
        (fun t : Nat => (t + 1, some "boom")) 2
      = .error { target := { value := 1,
                             state := (PoisonState.capturedPanic 1 "p").then_to_err 2 (some "boom") },
                 recover_to_poison_now := false })
    ∧ exceptIsOk
        (PoisonRecover.try_recover_with
          { target := { value := 1,
                        state := (PoisonState.capturedPanic 1 "p").then_to_err 2 (some "boom") },
            recover_to_poison_now := false }
          (fun t : Nat => (t, (none : Option String))) 3) = true :=
  ⟨rfl, rfl,
    (c3_try_recover_with_retry
      (PoisonRecover.mk_on_unwind (Poison.mk (0 : Nat) (.capturedPanic 1 "p")))
      (fun t : Nat => (t + 1, some "boom")) (fun t : Nat => (t, none))
      "boom" 1 1 2 3 rfl rfl).1,
    (c3_try_recover_with_retry
      (PoisonRecover.mk_on_unwind (Poison.mk (0 : Nat) (.capturedPanic 1 "p")))
      (fun t : Nat => (t + 1, some "boom")) (fun t : Nat => (t, none))
      "boom" 1 1 2 3 rfl rfl).2.2.2⟩

/-- C7: once one scope step has failed, by error or by unwind, the shadow state is
no longer armed (unpoisoned-or-sentinel); a later run returns the already-captured
failure immediately, leaving the scope untouched and never executing the supplied
step; the failing run itself resolves to the captured failure; and closing such a
scope leaves the container poisoned with the failed step's cause. -/
theorem c7_scope_short_circuits {T R : Type} (sc : PoisonScope T) (v w : T)
    (e : String) (payload : PanicPayload) (c c2 : Loc) (step2 : T → StepOutcome T R)
    (harm : sc.state.is_unpoisoned_or_sentinel = true) :
    ((sc.try_catch_unwind (fun _ => (StepOutcome.errored v e : StepOutcome T R)) c).1.state.is_unpoisoned_or_sentinel
      = false)
    ∧ ((sc.try_catch_unwind (fun _ => (StepOutcome.panicked w payload : StepOutcome T R)) c).1.state.is_unpoisoned_or_sentinel
      = false)
    ∧ (((sc.try_catch_unwind (fun _ => (StepOutcome.errored v e : StepOutcome T R)) c).1).try_catch_unwind step2 c2
        = ((sc.try_catch_unwind (fun _ => (StepOutcome.errored v e : StepOutcome T R)) c).1,
           .error ((sc.try_catch_unwind (fun _ => (StepOutcome.errored v e : StepOutcome T R)) c).1.state.to_error)))
    ∧ (((sc.try_catch_unwind (fun _ => (StepOutcome.errored v e : StepOutcome T R)) c).1).poison
        = .error (PoisonRecover.mk_on_unwind
            { value := v, state := sc.state.then_to_err c (some e) }))
    ∧ ((sc.try_catch_unwind (fun _ => (StepOutcome.errored v e : StepOutcome T R)) c).2
        = .error ((sc.state.then_to_err c (some e)).to_error)) := by
  have hrun : sc.try_catch_unwind (fun _ => (StepOutcome.errored v e : StepOutcome T R)) c
      = ({ target := { sc.target with value := v },
           state := sc.state.then_to_err c (some e) },
         .error ((sc.state.then_to_err c (some e)).to_error)) := by
    simp [PoisonScope.try_catch_unwind, harm]
  have hpan : sc.try_catch_unwind (fun _ => (StepOutcome.panicked w payload : StepOutcome T R)) c
      = ({ target := { sc.target with value := w },
           state := sc.state.then_to_panic c (some payload) },
         .error ((sc.state.then_to_panic c (some payload)).to_error)) := by
    simp [PoisonScope.try_catch_unwind, harm]
  have hnotarmed : (sc.state.then_to_err c (some e)).is_unpoisoned_or_sentinel = false := rfl
  have hid : (sc.state.then_to_err c (some e)).then_to_unpoisoned
      = sc.state.then_to_err c (some e) := rfl
  have hpo : (sc.state.then_to_err c (some e)).is_poisoned = true := rfl
  refine ⟨?_, ?_, ?_, ?_, ?_⟩
  · rw [hrun]
    exact hnotarmed
  · rw [hpan]
    exact PoisonState.from_panic_not_armed _ (some payload)
  · rw [hrun]
    simp [PoisonScope.try_catch_unwind, hnotarmed]
  · rw [hrun]
    simp [PoisonScope.poison, Poison.is_poisoned, hid, hpo]
  · rw [hrun]

/-- C7 witness. -/
theorem c7_scope_short_circuits_witness :
    (PoisonScope.mk (Poison.mk (0 : Nat) (.sentinel 1)) (.sentinel 1)).state.is_unpoisoned_or_sentinel
      = true
    ∧ (((PoisonScope.mk (Poison.mk (0 : Nat) (.sentinel 1)) (.sentinel 1)).try_catch_unwind
          (fun _ => (StepOutcome.errored (5 : Nat) "boom" : StepOutcome Nat Nat)) 2).1.state.is_unpoisoned_or_sentinel
        = false)
    ∧ (((PoisonScope.mk (Poison.mk (0 : Nat) (.sentinel 1)) (.sentinel 1)).try_catch_unwind
          (fun _ => (StepOutcome.errored (5 : Nat) "boom" : StepOutcome Nat Nat)) 2).1.poison
        = .error (PoisonRecover.mk_on_unwind
            { value := 5, state := (PoisonState.sentinel 1).then_to_err 2 (some "boom") })) :=
  ⟨rfl,
    (c7_scope_short_circuits (PoisonScope.mk (Poison.mk (0 : Nat) (.sentinel 1)) (.sentinel 1))
      5 6 "boom" .other 2 3 (fun t => StepOutcome.ok t (0 : Nat)) rfl).1,
    (c7_scope_short_circuits (PoisonScope.mk (Poison.mk (0 : Nat) (.sentinel 1)) (.sentinel 1))
      5 6 "boom" .other 2 3 (fun t => StepOutcome.ok t (0 : Nat)) rfl).2.2.2.1⟩
